import Mathlib

/-!
Verification of the message-flow tracing program `mq_track_flows.py`.

The file shallowly embeds the program: the PostgreSQL directory fetch
(`fetch_qmgr_details`), the connection helper (`connect_to_qmgr`), the four
administrative query helpers (`query_queue_details`, `query_topic_details`,
`query_subscription_details`, `query_channel_details`) and the iterative
traversal `trace_message_flow`.  External effects (the database, the MQ
network) are represented by an explicit `World` value: the database either
errors or yields rows, and each reachable queue manager is a table of its
queues, topics, subscriptions and channels.  A query that raises `MQMIError`
or returns no attributes is modelled as `none` / `[]`, exactly the values the
Python helpers return in those cases.

The traversal loop is embedded with explicit fuel; `fuelBound` is proved
sufficient to drain the pending-hop queue, which is the termination theorem.
Two instrumentation fields that do not exist in the Python state are carried
along: `events`, the linear log of session connect/disconnect calls (used to
state the resource-safety claim), and `steps`, the loop-iteration counter.
-/

/-- Models Python `str.strip()`: drop ASCII whitespace from both ends. -/
def isWS (c : Char) : Bool := c == ' ' || c == '\t' || c == '\n' || c == '\r'

/-- Models Python `str.strip()` on the character-list view of a string. -/
def pstrip (s : String) : String :=
  ⟨((s.data.dropWhile isWS).reverse.dropWhile isWS).reverse⟩

/-- First-match association-list lookup, the model of reading one PCF result
row selected by name (and of Python `dict` lookup after `dictInsert`). -/
def lookupA {α : Type} (l : List (String × α)) (k : String) : Option α :=
  match l with
  | [] => none
  | (k', v) :: rest => if k' = k then some v else lookupA rest k

/-- Python `dict` insertion: overwrite the value of an existing key in place,
otherwise append the new binding. -/
def dictInsert {α : Type} (l : List (String × α)) (k : String) (v : α) :
    List (String × α) :=
  match l with
  | [] => [(k, v)]
  | (k', v') :: rest =>
    if k' = k then (k, v) :: rest else (k', v') :: dictInsert rest k v

/-- MQ constant `MQQT_LOCAL`. -/
def MQQT_LOCAL : Nat := 1
/-- MQ constant `MQQT_ALIAS`. -/
def MQQT_ALIAS : Nat := 3
/-- MQ constant `MQQT_REMOTE`. -/
def MQQT_REMOTE : Nat := 6

/-- The attribute set returned by `MQCMD_INQUIRE_Q` for one queue
(`query_queue_details`): queue type tag, remote queue/manager names,
transmission-queue name and alias base-object name. -/
structure QueueAttrs where
  qType : Nat := 0
  remoteQName : String := ""
  remoteQMgrName : String := ""
  xmitQName : String := ""
  baseObjectName : String := ""
deriving DecidableEq, Repr

/-- The attribute set returned by `MQCMD_INQUIRE_TOPIC` for one topic. -/
structure TopicAttrs where
  topicString : String := ""
deriving DecidableEq, Repr

/-- One subscription row from `MQCMD_INQUIRE_SUBSCRIPTION`. -/
structure SubRec where
  subName : String := ""
  topicName : String := ""
  destination : String := ""
  destQMgr : String := ""
deriving DecidableEq, Repr

/-- One channel row from `MQCMD_INQUIRE_CHANNEL`. -/
structure ChannelRec where
  chName : String := ""
  chType : Nat := 0
  chXmitQName : String := ""
  connectionName : String := ""
deriving DecidableEq, Repr

/-- The administrative content of one reachable queue manager: what its PCF
interface answers for queue, topic, subscription and channel inquiries. -/
structure Manager where
  queues : List (String × QueueAttrs) := []
  topics : List (String × TopicAttrs) := []
  subs : List SubRec := []
  channels : List ChannelRec := []
deriving DecidableEq, Repr

/-- One row of the `queue_managers` table read by `fetch_qmgr_details`.
`channel`, `user` and `password` columns may be NULL (`none`). -/
structure DbRow where
  qmgr_name : String
  host : String := ""
  port : Nat := 1414
  channel : Option String := none
  user : Option String := none
  password : Option String := none
deriving DecidableEq, Repr

/-- The connection-detail record `fetch_qmgr_details` stores per manager. -/
structure ConnDetails where
  host : String
  port : Nat
  channel : String
  user : Option String
  password : Option String
deriving DecidableEq, Repr

/-- The external world of one run: the database query outcome feeding
`fetch_qmgr_details`, and the managers that accept an MQ client connection
(`connect_to_qmgr` raises `MQMIError`, i.e. returns `None`, for any manager
absent from `reachable`). -/
structure World where
  dbResult : Except String (List DbRow)
  reachable : List (String × Manager)

/-- Embeds `fetch_qmgr_details`: on a `psycopg2.Error` the exception is caught
and the empty mapping is returned; otherwise each row is inserted into the
dict, the `channel` column defaulting to `SYSTEM.DEF.SVRCONN` when falsy. -/
def fetch_qmgr_details (dbResult : Except String (List DbRow)) :
    List (String × ConnDetails) :=
  match dbResult with
  | .error _ => []
  | .ok rows =>
    rows.foldl (fun d r =>
      dictInsert d r.qmgr_name
        { host := r.host, port := r.port,
          channel :=
            match r.channel with
            | some c => if c ≠ "" then c else "SYSTEM.DEF.SVRCONN"
            | none => "SYSTEM.DEF.SVRCONN",
          user := r.user, password := r.password }) []

/-- Embeds `connect_to_qmgr`: a manager missing from `qmgr_details` yields
`None` at once (the printed message goes to stdout only); otherwise the
actual TCP connect succeeds exactly when the world lists the manager as
reachable, an `MQMIError` likewise yielding `None`. -/
def connect_to_qmgr (w : World) (qmgr_name : String)
    (qmgr_details : List (String × ConnDetails)) : Option Manager :=
  match lookupA qmgr_details qmgr_name with
  | none => none
  | some _ => lookupA w.reachable qmgr_name

/-- Embeds `query_queue_details`: the first attribute row for the named
queue, or `none` when the queue is unknown or the PCF call errors (the
Python function returns `{}` in both cases). -/
def query_queue_details (mgr : Manager) (queue_name : String) :
    Option QueueAttrs :=
  lookupA mgr.queues queue_name

/-- Embeds `query_topic_details`: first attribute row or `none`. -/
def query_topic_details (mgr : Manager) (topic_name : String) :
    Option TopicAttrs :=
  lookupA mgr.topics topic_name

/-- Embeds `query_subscription_details`: all subscriptions whose stripped
topic name equals the filter, the filter `*` matching every subscription. -/
def query_subscription_details (mgr : Manager) (topic_name : String) :
    List SubRec :=
  mgr.subs.filter (fun sb => pstrip sb.topicName == topic_name || topic_name == "*")

/-- Embeds `query_channel_details` with a transmission-queue filter: the
channels whose stripped transmission-queue name equals the filter. -/
def query_channel_details (mgr : Manager) (xmit_queue : String) :
    List ChannelRec :=
  mgr.channels.filter (fun ch => pstrip ch.chXmitQName == xmit_queue)

/-- The `channel` sub-dict recorded in a node's details: name, type and
connection name of the first channel bound to the transmission queue. -/
structure ChannelDetail where
  name : String
  chanType : Nat
  connection_name : String
deriving DecidableEq, Repr

/-- One entry of the `subscriptions` list recorded in a topic node. -/
structure SubDetail where
  name : String
  destination : String
  destination_queue_manager : String
deriving DecidableEq, Repr

/-- The `details` dict of one flow node.  Each optional field is `none`
exactly when the Python dict lacks the key; the two list fields are empty
exactly when the key is absent (the code only ever creates them non-empty). -/
structure Details where
  detailType : Option String := none
  base_object_name : Option String := none
  base_object_type : Option String := none
  base_queue_type : Option String := none
  transmission_queue : Option String := none
  channel : Option ChannelDetail := none
  remote_queue_manager : Option String := none
  remote_queue : Option String := none
  next_hop : Option String := none
  topic_string : Option String := none
  subscriptions : List SubDetail := []
  next_hops : List String := []
deriving DecidableEq, Repr

/-- An `obj_info` entry of the flow path: manager, object, declared type,
kind-specific details and the optional `error` value. -/
structure ObjNode where
  queue_manager : String
  object_name : String
  object_type : String
  details : Details := {}
  error : Option String := none
deriving DecidableEq, Repr

/-- One entry appended to `flow_details["flow_path"]`: a loop `note` dict, a
bare connect-failure `error` dict, or a full `obj_info` dict. -/
inductive FlowEntry where
  | note (text : String)
  | connError (text : String)
  | obj (node : ObjNode)
deriving DecidableEq, Repr

/-- One pending hop `(queue-manager name, object name, object type)`. -/
structure Hop where
  qm : String
  obj : String
  ty : String
deriving DecidableEq, Repr

/-- A session connect or disconnect call, for the instrumentation log. -/
inductive SessEvent where
  | openS (m : String)
  | closeS (m : String)
deriving DecidableEq, Repr

/-- The state of the traversal loop: the pending `hop_queue`, the `visited`
manager list (Python uses a set; the list records insertion order), the
accumulated `flow_path`, plus the session-event log and iteration counter
used only by the theorems. -/
structure TraceState where
  queue : List Hop
  visited : List String
  path : List FlowEntry
  events : List SessEvent
  steps : Nat
deriving Repr

/-- The channel lookup block repeated at lines 177-183, 193-199, 215-221 and
231-237 of the source: query the channels bound to the transmission queue and
record the first one's stripped name, type and connection name, or nothing
when no channel matches. -/
def channelDetail (mgr : Manager) (xmit : String) : Option ChannelDetail :=
  match query_channel_details mgr xmit with
  | [] => none
  | c :: _ =>
    some { name := pstrip c.chName, chanType := c.chType,
           connection_name := pstrip c.connectionName }

/-- The queue-type branch of the traversal body (source lines 161-242),
given the attributes already fetched for the current queue.  Returns the
`details` dict and the hops appended to `hop_queue` in append order. -/
def classifyQueue (mgr : Manager) (qm : String) (qa : QueueAttrs) :
    Details × List Hop :=
  if qa.qType = MQQT_ALIAS then
    let base := pstrip qa.baseObjectName
    let d0 : Details := { detailType := some "Alias", base_object_name := some base }
    if base ≠ "" then
      match query_queue_details mgr base with
      | some bqa =>
        let withBase : Details × List Hop :=
          if bqa.qType = MQQT_LOCAL then
            let x := pstrip bqa.xmitQName
            if x ≠ "" then
              ({ d0 with base_object_type := some "queue",
                         base_queue_type := some "Local",
                         transmission_queue := some x,
                         channel := channelDetail mgr x }, [])
            else
              ({ d0 with base_object_type := some "queue",
                         base_queue_type := some "Local" }, [])
          else if bqa.qType = MQQT_REMOTE then
            let rqm := pstrip bqa.remoteQMgrName
            let rq := pstrip bqa.remoteQName
            let x := pstrip bqa.xmitQName
            let d2 : Details :=
              { d0 with base_object_type := some "queue",
                        base_queue_type := some "Remote",
                        remote_queue_manager := some rqm,
                        remote_queue := some rq,
                        transmission_queue := if x ≠ "" then some x else none,
                        channel := if x ≠ "" then channelDetail mgr x else none }
            if rqm ≠ "" ∧ rq ≠ "" then
              ({ d2 with next_hop := some (rq ++ " on " ++ rqm) },
               [⟨rqm, rq, "queue"⟩])
            else (d2, [])
          else
            ({ d0 with base_object_type := some "queue" }, [])
        (withBase.1, withBase.2 ++ [⟨qm, base, "queue"⟩])
      | none =>
        match query_topic_details mgr base with
        | some _ =>
          ({ d0 with base_object_type := some "topic" }, [⟨qm, base, "topic"⟩])
        | none => (d0, [])
    else (d0, [])
  else if qa.qType = MQQT_LOCAL then
    let x := pstrip qa.xmitQName
    ({ detailType := some "Local",
       transmission_queue := if x ≠ "" then some x else none,
       channel := if x ≠ "" then channelDetail mgr x else none }, [])
  else if qa.qType = MQQT_REMOTE then
    let rqm := pstrip qa.remoteQMgrName
    let rq := pstrip qa.remoteQName
    let x := pstrip qa.xmitQName
    let d : Details :=
      { detailType := some "Remote",
        remote_queue_manager := some rqm,
        remote_queue := some rq,
        transmission_queue := if x ≠ "" then some x else none,
        channel := if x ≠ "" then channelDetail mgr x else none }
    if rqm ≠ "" ∧ rq ≠ "" then
      ({ d with next_hop := some (rq ++ " on " ++ rqm) }, [⟨rqm, rq, "queue"⟩])
    else (d, [])
  else
    ({ detailType := some "Unsupported queue type" }, [])

/-- The `current_obj_type == "queue"` arm (source lines 152-242): query the
queue, early-return a not-found error node, else classify.  Returns the
details, the `error` field and the appended hops. -/
def handleQueue (mgr : Manager) (qm obj : String) :
    Details × Option String × List Hop :=
  match query_queue_details mgr obj with
  | none => ({}, some ("Queue " ++ obj ++ " not found on " ++ qm), [])
  | some qa =>
    let c := classifyQueue mgr qm qa
    (c.1, none, c.2)

/-- The `current_obj_type == "topic"` arm (source lines 244-271): query the
topic, early-return a not-found error node, else record the topic string and
fan out over the matching subscriptions, a blank stripped destination manager
defaulting to the current manager and a blank destination enqueuing
nothing. -/
def handleTopic (mgr : Manager) (qm obj : String) :
    Details × Option String × List Hop :=
  match query_topic_details mgr obj with
  | none => ({}, some ("Topic " ++ obj ++ " not found on " ++ qm), [])
  | some ta =>
    let subs := query_subscription_details mgr obj
    let d0 : Details :=
      { detailType := some "Topic", topic_string := some (pstrip ta.topicString) }
    if subs = [] then (d0, none, [])
    else
      let subDetails := subs.map (fun sb =>
        { name := pstrip sb.subName, destination := pstrip sb.destination,
          destination_queue_manager :=
            if pstrip sb.destQMgr = "" then qm else pstrip sb.destQMgr
          : SubDetail })
      let hops := subs.filterMap (fun sb =>
        if pstrip sb.destination ≠ "" then
          some ⟨if pstrip sb.destQMgr = "" then qm else pstrip sb.destQMgr,
                pstrip sb.destination, "queue"⟩
        else none)
      let nextHops := subs.filterMap (fun sb =>
        if pstrip sb.destination ≠ "" then
          some (pstrip sb.destination ++ " on "
                ++ (if pstrip sb.destQMgr = "" then qm
                    else pstrip sb.destQMgr))
        else none)
      ({ d0 with subscriptions := subDetails, next_hops := nextHops }, none, hops)

/-- Dispatch on the declared object type of the hop.  A type that is neither
`queue` nor `topic` matches no branch of the source and produces the bare
`obj_info` dict with empty details and no hops. -/
def hopNode (mgr : Manager) (h : Hop) : Details × Option String × List Hop :=
  if h.ty = "queue" then handleQueue mgr h.qm h.obj
  else if h.ty = "topic" then handleTopic mgr h.qm h.obj
  else ({}, none, [])

/-- One iteration of the `while hop_queue` loop (source lines 131-274), run
on the state after the current hop has been popped.  The `closeS` event
corresponds to the `disconnect` calls at source lines 158, 250 and 274, one
of which ends every path on which the connect succeeded. -/
def traceStep (w : World) (dir : List (String × ConnDetails))
    (s : TraceState) (h : Hop) : TraceState :=
  if h.qm ∈ s.visited then
    { s with
      path := s.path ++ [.note ("Loop detected at " ++ h.qm ++ ", stopping trace")],
      steps := s.steps + 1 }
  else
    match connect_to_qmgr w h.qm dir with
    | none =>
      { s with visited := s.visited ++ [h.qm],
               path := s.path ++ [.connError ("Failed to connect to " ++ h.qm)],
               steps := s.steps + 1 }
    | some mgr =>
      { s with visited := s.visited ++ [h.qm],
               path := s.path ++
                 [.obj { queue_manager := h.qm, object_name := h.obj,
                         object_type := h.ty,
                         details := (hopNode mgr h).1,
                         error := (hopNode mgr h).2.1 }],
               queue := s.queue ++ (hopNode mgr h).2.2,
               events := s.events ++ [.openS h.qm, .closeS h.qm],
               steps := s.steps + 1 }

/-- The traversal loop with explicit fuel; `fuelBound` below is proved to
drain the queue, so the fuelled loop run at that bound is the loop itself. -/
def traceLoop (w : World) (dir : List (String × ConnDetails)) :
    Nat → TraceState → TraceState
  | 0, s => s
  | f + 1, s =>
    match s.queue with
    | [] => s
    | h :: rest => traceLoop w dir f (traceStep w dir { s with queue := rest } h)

/-- The largest subscription count of any reachable manager: an upper bound
on the hops a single topic node can enqueue. -/
def maxSubs (w : World) : Nat :=
  w.reachable.foldr (fun p a => max p.2.subs.length a) 0

/-- Per-iteration fan-out bound: a queue hop enqueues at most two hops and a
topic hop at most one per subscription. -/
def fanK (w : World) : Nat := maxSubs w + 2

/-- Sufficient fuel for the loop: every iteration that enqueues anything
moves a distinct directory manager into `visited`. -/
def fuelBound (w : World) (dir : List (String × ConnDetails)) : Nat :=
  (dir.map Prod.fst).dedup.length * fanK w + 1

/-- The loop state seeded with the caller's starting triple. -/
def initState (qm obj ty : String) : TraceState :=
  { queue := [⟨qm, obj, ty⟩], visited := [], path := [], events := [], steps := 0 }

/-- The full traversal: fetch the directory, seed the queue with the starting
triple, and run the loop to completion. -/
def traceRun (w : World) (qm obj ty : String) : TraceState :=
  traceLoop w (fetch_qmgr_details w.dbResult)
    (fuelBound w (fetch_qmgr_details w.dbResult)) (initState qm obj ty)

/-- The value `trace_message_flow` returns to its caller. -/
structure FlowResult where
  starting_queue_manager : String
  object_name : String
  object_type : String
  flow_path : List FlowEntry
deriving DecidableEq, Repr

/-- Embeds `trace_message_flow`: the `flow_details` dict built from the
starting triple and the accumulated `flow_path`. -/
def trace_message_flow (w : World) (qmgr_name object_name object_type : String) :
    FlowResult :=
  { starting_queue_manager := qmgr_name, object_name := object_name,
    object_type := object_type,
    flow_path := (traceRun w qmgr_name object_name object_type).path }

/-! Helper lemmas: the three shapes of one loop iteration. -/

/-- A popped hop whose manager is already visited only appends the loop note
and advances the step counter; queue, visited set and session log are
untouched and no query is issued. -/
theorem traceStep_visited (w : World) (dir : List (String × ConnDetails))
    (s : TraceState) (h : Hop) (hv : h.qm ∈ s.visited) :
    traceStep w dir s h =
      { s with
        path := s.path ++
          [.note ("Loop detected at " ++ h.qm ++ ", stopping trace")],
        steps := s.steps + 1 } := by
  simp [traceStep, hv]

/-- A fresh hop whose connect fails marks the manager visited, appends the
bare connect-failure error dict and enqueues nothing. -/
theorem traceStep_connFail (w : World) (dir : List (String × ConnDetails))
    (s : TraceState) (h : Hop) (hv : h.qm ∉ s.visited)
    (hc : connect_to_qmgr w h.qm dir = none) :
    traceStep w dir s h =
      { s with visited := s.visited ++ [h.qm],
               path := s.path ++ [.connError ("Failed to connect to " ++ h.qm)],
               steps := s.steps + 1 } := by
  simp [traceStep, hv, hc]

/-- A fresh hop whose connect succeeds opens and closes one session, appends
the node produced by `hopNode` and enqueues its follow-up hops. -/
theorem traceStep_connected (w : World) (dir : List (String × ConnDetails))
    (s : TraceState) (h : Hop) (mgr : Manager) (hv : h.qm ∉ s.visited)
    (hc : connect_to_qmgr w h.qm dir = some mgr) :
    traceStep w dir s h =
      { s with visited := s.visited ++ [h.qm],
               path := s.path ++
                 [.obj { queue_manager := h.qm, object_name := h.obj,
                         object_type := h.ty,
                         details := (hopNode mgr h).1,
                         error := (hopNode mgr h).2.1 }],
               queue := s.queue ++ (hopNode mgr h).2.2,
               events := s.events ++ [.openS h.qm, .closeS h.qm],
               steps := s.steps + 1 } := by
  simp [traceStep, hv, hc]

/-- The loop is inert on an empty queue. -/
theorem traceLoop_nil (w : World) (dir : List (String × ConnDetails))
    (f : Nat) (s : TraceState) (hq : s.queue = []) :
    traceLoop w dir f s = s := by
  cases f with
  | zero => rfl
  | succ f => simp [traceLoop, hq]

/-- Unfolding one iteration of the loop on a non-empty queue. -/
theorem traceLoop_cons (w : World) (dir : List (String × ConnDetails))
    (f : Nat) (s : TraceState) (h : Hop) (rest : List Hop)
    (hq : s.queue = h :: rest) :
    traceLoop w dir (f + 1) s =
      traceLoop w dir f (traceStep w dir { s with queue := rest } h) := by
  simp [traceLoop, hq]

/-- Fuel composes: running `a + b` steps is running `a` then `b`. -/
theorem traceLoop_add (w : World) (dir : List (String × ConnDetails))
    (a b : Nat) (s : TraceState) :
    traceLoop w dir (a + b) s = traceLoop w dir b (traceLoop w dir a s) := by
  induction a generalizing s with
  | zero => simp [traceLoop]
  | succ a ih =>
    rcases hq : s.queue with _ | ⟨h, rest⟩
    · rw [traceLoop_nil w dir (a + 1) s hq,
        traceLoop_nil w dir (a + 1 + b) s hq, traceLoop_nil w dir b s hq]
    · have : a + 1 + b = (a + b) + 1 := by omega
      rw [this, traceLoop_cons w dir (a + b) s h rest hq,
        traceLoop_cons w dir a s h rest hq, ih]

theorem lookupA_mem {α : Type} (l : List (String × α)) (k : String) (v : α)
    (h : lookupA l k = some v) : (k, v) ∈ l := by
  induction l with
  | nil => simp [lookupA] at h
  | cons p rest ih =>
    obtain ⟨k', v'⟩ := p
    by_cases hk : k' = k
    · subst hk
      simp [lookupA] at h
      simp [h]
    · simp [lookupA, hk] at h
      exact List.mem_cons_of_mem _ (ih h)

theorem lookupA_mem_keys {α : Type} (l : List (String × α)) (k : String)
    (v : α) (h : lookupA l k = some v) : k ∈ l.map Prod.fst :=
  List.mem_map.mpr ⟨(k, v), lookupA_mem l k v h, rfl⟩

theorem connect_some (w : World) (m : String)
    (dir : List (String × ConnDetails)) (mgr : Manager)
    (h : connect_to_qmgr w m dir = some mgr) :
    m ∈ dir.map Prod.fst ∧ (m, mgr) ∈ w.reachable := by
  rcases hd : lookupA dir m with _ | cd
  · simp [connect_to_qmgr, hd] at h
  · simp only [connect_to_qmgr, hd] at h
    exact ⟨lookupA_mem_keys dir m cd hd, lookupA_mem w.reachable m mgr h⟩

theorem foldr_max_subs (l : List (String × Manager)) (m : String) (mgr : Manager)
    (h : (m, mgr) ∈ l) :
    mgr.subs.length ≤ l.foldr (fun p a => max p.2.subs.length a) 0 := by
  induction l with
  | nil => simp at h
  | cons p rest ih =>
    rcases List.mem_cons.mp h with h1 | h1
    · subst h1
      exact le_max_left _ _
    · exact le_trans (ih h1) (le_max_right _ _)

theorem subs_le_maxSubs (w : World) (m : String) (mgr : Manager)
    (h : (m, mgr) ∈ w.reachable) : mgr.subs.length ≤ maxSubs w :=
  foldr_max_subs w.reachable m mgr h

/-- The three queue-type constants are pairwise distinct. -/
theorem MQQT_ne1 : MQQT_REMOTE ≠ MQQT_LOCAL := by decide

/-- The remote and alias queue-type constants differ. -/
theorem MQQT_ne2 : MQQT_REMOTE ≠ MQQT_ALIAS := by decide

/-- The local and alias queue-type constants differ. -/
theorem MQQT_ne3 : MQQT_LOCAL ≠ MQQT_ALIAS := by decide

theorem classifyQueue_hops_le (mgr : Manager) (qm : String) (qa : QueueAttrs) :
    (classifyQueue mgr qm qa).2.length ≤ 2 := by
  by_cases h1 : qa.qType = MQQT_ALIAS
  · by_cases hb : pstrip qa.baseObjectName = ""
    · simp [classifyQueue, MQQT_ne1, MQQT_ne2, MQQT_ne3, h1, hb]
    · rcases hq : query_queue_details mgr (pstrip qa.baseObjectName) with _ | bqa
      · rcases ht : query_topic_details mgr (pstrip qa.baseObjectName) with _ | ta <;>
          simp [classifyQueue, MQQT_ne1, MQQT_ne2, MQQT_ne3, h1, hb, hq, ht]
      · by_cases h2 : bqa.qType = MQQT_LOCAL
        · by_cases hx : pstrip bqa.xmitQName = "" <;>
            simp [classifyQueue, MQQT_ne1, MQQT_ne2, MQQT_ne3, h1, hb, hq, h2, hx]
        · by_cases h3 : bqa.qType = MQQT_REMOTE
          · by_cases hr : pstrip bqa.remoteQMgrName ≠ "" ∧ pstrip bqa.remoteQName ≠ "" <;>
              simp [classifyQueue, MQQT_ne1, MQQT_ne2, MQQT_ne3, h1, hb, hq, h2, h3, hr]
          · simp [classifyQueue, MQQT_ne1, MQQT_ne2, MQQT_ne3, h1, hb, hq, h2, h3]
  · by_cases h2 : qa.qType = MQQT_LOCAL
    · simp [classifyQueue, MQQT_ne1, MQQT_ne2, MQQT_ne3, h1, h2]
    · by_cases h3 : qa.qType = MQQT_REMOTE
      · by_cases hr : pstrip qa.remoteQMgrName ≠ "" ∧ pstrip qa.remoteQName ≠ "" <;>
          simp [classifyQueue, MQQT_ne1, MQQT_ne2, MQQT_ne3, h1, h2, h3, hr]
      · simp [classifyQueue, MQQT_ne1, MQQT_ne2, MQQT_ne3, h1, h2, h3]

theorem handleTopic_hops_le (mgr : Manager) (qm obj : String) :
    (handleTopic mgr qm obj).2.2.length ≤ mgr.subs.length := by
  unfold handleTopic
  rcases ht : query_topic_details mgr obj with _ | ta
  · simp
  · simp only
    split_ifs with h
    · simp
    · refine le_trans (List.length_filterMap_le _ _) ?_
      exact List.length_filter_le _ _

theorem hopNode_hops_le (mgr : Manager) (h : Hop) :
    (hopNode mgr h).2.2.length ≤ mgr.subs.length + 2 := by
  unfold hopNode
  split_ifs with h1 h2
  · unfold handleQueue
    rcases hq : query_queue_details mgr h.obj with _ | qa
    · simp
    · simpa using le_trans (classifyQueue_hops_le mgr h.qm qa) (by omega)
  · exact le_trans (handleTopic_hops_le mgr h.qm h.obj) (by omega)
  · simp

/-- The number of directory managers not yet visited. -/
def unvisitedDir (dir : List (String × ConnDetails)) (visited : List String) :
    Nat :=
  ((dir.map Prod.fst).dedup.filter (fun m => decide (m ∉ visited))).length

/-- The termination potential of a loop state. -/
def phi (w : World) (dir : List (String × ConnDetails)) (s : TraceState) :
    Nat :=
  unvisitedDir dir s.visited * fanK w + s.queue.length

/-- Filtering with a weaker predicate keeps at least as many elements. -/
theorem length_filter_mono {α : Type} (l : List α) (p q : α → Bool)
    (h : ∀ a, p a = true → q a = true) :
    (l.filter p).length ≤ (l.filter q).length := by
  induction l with
  | nil => simp
  | cons a rest ih =>
    by_cases hp : p a = true
    · simp [List.filter_cons, hp, h a hp]
      omega
    · simp only [Bool.not_eq_true] at hp
      rcases hq : q a with _ | _ <;> simp [List.filter_cons, hp, hq] <;> omega

/-- Filtering with a strictly weaker predicate on a duplicate-free list that
contains a separating element keeps strictly fewer elements. -/
theorem length_filter_lt {α : Type} [DecidableEq α] (l : List α)
    (p q : α → Bool) (a : α) (hnd : l.Nodup) (hal : a ∈ l)
    (hqa : q a = true) (hpa : p a = false)
    (h : ∀ x, p x = true → q x = true) :
    (l.filter p).length < (l.filter q).length := by
  induction l with
  | nil => simp at hal
  | cons b rest ih =>
    have hnd' : rest.Nodup := (List.nodup_cons.mp hnd).2
    rcases List.mem_cons.mp hal with hba | ha'
    · subst hba
      simp [List.filter_cons, hpa, hqa]
      calc (rest.filter p).length ≤ (rest.filter q).length :=
            length_filter_mono rest p q h
        _ < (rest.filter q).length + 1 := by omega
    · by_cases hpb : p b = true
      · simp [List.filter_cons, hpb, h b hpb]
        exact ih hnd' ha'
      · simp only [Bool.not_eq_true] at hpb
        rcases hqb : q b with _ | _
        · simp [List.filter_cons, hpb, hqb]
          exact ih hnd' ha'
        · simp [List.filter_cons, hpb, hqb]
          have := ih hnd' ha'
          omega

/-- Growing the visited list never increases the unvisited-directory count. -/
theorem unvisited_append_le (dir : List (String × ConnDetails))
    (V : List String) (m : String) :
    unvisitedDir dir (V ++ [m]) ≤ unvisitedDir dir V := by
  apply length_filter_mono
  intro a ha
  simp only [decide_eq_true_eq] at ha ⊢
  exact fun haV => ha (List.mem_append_left _ haV)

/-- Visiting a fresh directory manager strictly shrinks the
unvisited-directory count. -/
theorem unvisited_append_lt (dir : List (String × ConnDetails))
    (V : List String) (m : String) (hm : m ∈ dir.map Prod.fst) (hv : m ∉ V) :
    unvisitedDir dir (V ++ [m]) < unvisitedDir dir V := by
  apply length_filter_lt _ _ _ m (List.nodup_dedup _) (List.mem_dedup.mpr hm)
  · simp [hv]
  · simp
  · intro x hx
    simp only [decide_eq_true_eq] at hx ⊢
    exact fun hxV => hx (List.mem_append_left _ hxV)

/-- One loop iteration never increases the termination potential. -/
theorem phi_step_le (w : World) (dir : List (String × ConnDetails))
    (s : TraceState) (h : Hop) :
    phi w dir (traceStep w dir s h) ≤ phi w dir s := by
  by_cases hv : h.qm ∈ s.visited
  · rw [traceStep_visited w dir s h hv]
    simp [phi]
  · rcases hc : connect_to_qmgr w h.qm dir with _ | mgr
    · rw [traceStep_connFail w dir s h hv hc]
      simp only [phi]
      exact Nat.add_le_add_right
        (Nat.mul_le_mul_right _ (unvisited_append_le dir s.visited h.qm)) _
    · rw [traceStep_connected w dir s h mgr hv hc]
      simp only [phi, List.length_append]
      obtain ⟨hdir, hreach⟩ := connect_some w h.qm dir mgr hc
      have h1 : unvisitedDir dir (s.visited ++ [h.qm]) + 1 ≤
          unvisitedDir dir s.visited :=
        unvisited_append_lt dir s.visited h.qm hdir hv
      have h2 : (hopNode mgr h).2.2.length ≤ fanK w := by
        have := subs_le_maxSubs w h.qm mgr hreach
        have := hopNode_hops_le mgr h
        unfold fanK
        omega
      calc unvisitedDir dir (s.visited ++ [h.qm]) * fanK w +
            (s.queue.length + (hopNode mgr h).2.2.length)
          ≤ unvisitedDir dir (s.visited ++ [h.qm]) * fanK w +
            (s.queue.length + fanK w) := by omega
        _ = (unvisitedDir dir (s.visited ++ [h.qm]) + 1) * fanK w +
            s.queue.length := by ring
        _ ≤ unvisitedDir dir s.visited * fanK w + s.queue.length := by
            have := Nat.mul_le_mul_right (fanK w) h1
            omega

/-- Fuel at least the potential drains the pending-hop queue. -/
theorem traceLoop_drain (w : World) (dir : List (String × ConnDetails)) :
    ∀ (f : Nat) (s : TraceState), phi w dir s ≤ f →
      (traceLoop w dir f s).queue = [] := by
  intro f
  induction f with
  | zero =>
    intro s hs
    have hlen : s.queue.length = 0 := by
      have : s.queue.length ≤ phi w dir s := by
        simp [phi]
      omega
    simpa [traceLoop] using List.length_eq_zero.mp hlen
  | succ f ih =>
    intro s hs
    rcases hq : s.queue with _ | ⟨h, rest⟩
    · rw [traceLoop_nil w dir (f + 1) s hq]
      exact hq
    · rw [traceLoop_cons w dir f s h rest hq]
      apply ih
      have h1 := phi_step_le w dir { s with queue := rest } h
      have h2 : phi w dir s = phi w dir { s with queue := rest } + 1 := by
        simp [phi, hq, Nat.add_assoc]
      omega

/-- The potential of the initial state is exactly the chosen fuel bound. -/
theorem phi_init (w : World) (dir : List (String × ConnDetails))
    (qm obj ty : String) :
    phi w dir (initState qm obj ty) = fuelBound w dir := by
  simp [phi, initState, fuelBound, unvisitedDir]

/-- The traversal drains its queue: the run ends with no pending hops. -/
theorem traceRun_queue_nil (w : World) (qm obj ty : String) :
    (traceRun w qm obj ty).queue = [] := by
  unfold traceRun
  exact traceLoop_drain w _ _ _ (le_of_eq (phi_init w _ qm obj ty))

/-- Extra fuel beyond the bound does not change the run: the loop has
reached its fixpoint, which is the termination statement for the fuelled
embedding. -/
theorem traceRun_stable (w : World) (qm obj ty : String) (extra : Nat) :
    traceLoop w (fetch_qmgr_details w.dbResult)
      (fuelBound w (fetch_qmgr_details w.dbResult) + extra)
      (initState qm obj ty) = traceRun w qm obj ty := by
  rw [traceLoop_add]
  exact traceLoop_nil _ _ _ _ (traceRun_queue_nil w qm obj ty)

/-! Helper definitions and lemmas: node classification, session log, and the
loop invariant. -/

/-- The manager of a successfully processed node: an `obj_info` entry with no
`error` field (loop notes and failure entries yield `none`). -/
def entrySucc : FlowEntry → Option String
  | .obj n =>
    match n.error with
    | none => some n.queue_manager
    | some _ => none
  | _ => none

/-- The managers of the successfully processed nodes, in path order. -/
def succMgrs (p : List FlowEntry) : List String := p.filterMap entrySucc

/-- The number of path entries that are not successful nodes: loop notes,
connect failures and object-not-found nodes. -/
def failCount (p : List FlowEntry) : Nat :=
  (p.filter (fun e => (entrySucc e).isNone)).length

/-- `succMgrs` distributes over append. -/
theorem succMgrs_append (p q : List FlowEntry) :
    succMgrs (p ++ q) = succMgrs p ++ succMgrs q := by
  simp [succMgrs]

/-- Every path entry is either a success or counted by `failCount`. -/
theorem length_eq_succ_add_fail (p : List FlowEntry) :
    p.length = (succMgrs p).length + failCount p := by
  induction p with
  | nil => simp [succMgrs, failCount]
  | cons e rest ih =>
    rcases he : entrySucc e with _ | m <;>
      simp [succMgrs, failCount, List.filterMap_cons, List.filter_cons, he] <;>
      simp [succMgrs, failCount] at ih <;> omega

/-- A duplicate-free list included in another list is no longer than the
other list's deduplication. -/
theorem nodup_length_le_dedup {α : Type} [DecidableEq α] (l l' : List α)
    (hnd : l.Nodup) (hsub : ∀ a ∈ l, a ∈ l') :
    l.length ≤ l'.dedup.length := by
  rw [← List.toFinset_card_of_nodup hnd, ← List.card_toFinset l']
  apply Finset.card_le_card
  intro a ha
  rw [List.mem_toFinset] at ha ⊢
  exact hsub a ha

/-- Appending a fresh element preserves freedom from duplicates. -/
theorem nodup_append_singleton {α : Type} (l : List α) (a : α)
    (hnd : l.Nodup) (ha : a ∉ l) : (l ++ [a]).Nodup := by
  rw [List.nodup_append]
  exact ⟨hnd, List.nodup_singleton a, by simp [List.Disjoint, ha]; intro x hx hxa; exact ha (hxa ▸ hx)⟩

/-- Session-log well-formedness: scanning the log with at most one open
session, every `openS` is immediately matched by its `closeS` and the log
ends with no session open. -/
def sessionsOK : Option String → List SessEvent → Bool
  | none, [] => true
  | none, .openS m :: rest => sessionsOK (some m) rest
  | none, .closeS _ :: _ => false
  | some _, [] => false
  | some m, .closeS m' :: rest => (m == m') && sessionsOK none rest
  | some _, .openS _ :: _ => false

/-- A balanced log followed by anything scans like the continuation alone. -/
theorem sessionsOK_append (ev : List SessEvent) :
    ∀ (st : Option String) (tail : List SessEvent), sessionsOK st ev = true →
      sessionsOK st (ev ++ tail) = sessionsOK none tail := by
  induction ev with
  | nil =>
    intro st tail hst
    cases st with
    | none => simp
    | some m => simp [sessionsOK] at hst
  | cons e rest ih =>
    intro st tail hst
    cases st with
    | none =>
      cases e with
      | openS m =>
        simp only [sessionsOK] at hst
        simpa [sessionsOK] using ih (some m) tail hst
      | closeS m => simp [sessionsOK] at hst
    | some m =>
      cases e with
      | openS m' => simp [sessionsOK] at hst
      | closeS m' =>
        simp only [sessionsOK, Bool.and_eq_true] at hst
        simp only [List.cons_append, sessionsOK, hst.1, Bool.true_and]
        exact ih none tail hst.2

/-- Appending one matched open/close pair preserves balance. -/
theorem sessionsOK_append_pair (ev : List SessEvent) (m : String)
    (h : sessionsOK none ev = true) :
    sessionsOK none (ev ++ [.openS m, .closeS m]) = true := by
  rw [sessionsOK_append ev none _ h]
  simp [sessionsOK]

/-- The loop invariant: the visited list is duplicate-free, the successful
nodes name pairwise distinct managers all of which are in the directory and
visited, the step counter counts path entries, and the session log is
balanced. -/
structure TraceInv (dir : List (String × ConnDetails)) (s : TraceState) : Prop where
  nodupVisited : s.visited.Nodup
  nodupSucc : (succMgrs s.path).Nodup
  succDir : ∀ m ∈ succMgrs s.path, m ∈ dir.map Prod.fst
  succVis : ∀ m ∈ succMgrs s.path, m ∈ s.visited
  stepsEq : s.steps = s.path.length
  sessOK : sessionsOK none s.events = true

/-- The invariant ignores the pending queue. -/
theorem inv_queue_update (dir : List (String × ConnDetails)) (s : TraceState)
    (q : List Hop) (i : TraceInv dir s) : TraceInv dir { s with queue := q } :=
  ⟨i.1, i.2, i.3, i.4, i.5, i.6⟩

/-- The invariant holds initially. -/
theorem inv_init (dir : List (String × ConnDetails)) (qm obj ty : String) :
    TraceInv dir (initState qm obj ty) := by
  refine ⟨?_, ?_, ?_, ?_, ?_, ?_⟩ <;> simp [initState, succMgrs, sessionsOK]

/-- A loop note contributes no successful manager. -/
theorem succMgrs_note (t : String) : succMgrs [.note t] = [] := rfl

/-- A connect-failure entry contributes no successful manager. -/
theorem succMgrs_connError (t : String) : succMgrs [.connError t] = [] := rfl

/-- An error-free node contributes its manager. -/
theorem succMgrs_obj_none (n : ObjNode) (h : n.error = none) :
    succMgrs [.obj n] = [n.queue_manager] := by
  simp [succMgrs, entrySucc, h]

/-- A node carrying an error contributes no successful manager. -/
theorem succMgrs_obj_some (n : ObjNode) (msg : String)
    (h : n.error = some msg) : succMgrs [.obj n] = [] := by
  simp [succMgrs, entrySucc, h]

/-- One loop iteration preserves the invariant. -/
theorem inv_step (w : World) (dir : List (String × ConnDetails))
    (s : TraceState) (h : Hop) (i : TraceInv dir s) :
    TraceInv dir (traceStep w dir s h) := by
  by_cases hv : h.qm ∈ s.visited
  · rw [traceStep_visited w dir s h hv]
    refine ⟨i.1, ?_, ?_, ?_, ?_, i.6⟩
    · simpa [succMgrs_append, succMgrs_note] using i.2
    · simpa [succMgrs_append, succMgrs_note] using i.3
    · simpa [succMgrs_append, succMgrs_note] using i.4
    · simp [i.5]
  · rcases hc : connect_to_qmgr w h.qm dir with _ | mgr
    · rw [traceStep_connFail w dir s h hv hc]
      refine ⟨nodup_append_singleton _ _ i.1 hv, ?_, ?_, ?_, ?_, i.6⟩
      · simpa [succMgrs_append, succMgrs_connError] using i.2
      · simpa [succMgrs_append, succMgrs_connError] using i.3
      · simp only [succMgrs_append, succMgrs_connError, List.append_nil]
        intro m hm
        exact List.mem_append_left _ (i.4 m hm)
      · simp [i.5]
    · rw [traceStep_connected w dir s h mgr hv hc]
      obtain ⟨hdir, _⟩ := connect_some w h.qm dir mgr hc
      have hnotsucc : h.qm ∉ succMgrs s.path := fun hmem => hv (i.4 _ hmem)
      rcases herr : (hopNode mgr h).2.1 with _ | msg
      · have hobj := succMgrs_obj_none
          { queue_manager := h.qm, object_name := h.obj, object_type := h.ty,
            details := (hopNode mgr h).1, error := none } rfl
        refine ⟨nodup_append_singleton _ _ i.1 hv, ?_, ?_, ?_, ?_, ?_⟩
        · rw [succMgrs_append, hobj]
          exact nodup_append_singleton _ _ i.2 hnotsucc
        · rw [succMgrs_append, hobj]
          intro m hm
          rcases List.mem_append.mp hm with hm1 | hm1
          · exact i.3 m hm1
          · simp at hm1
            exact hm1 ▸ hdir
        · rw [succMgrs_append, hobj]
          intro m hm
          rcases List.mem_append.mp hm with hm1 | hm1
          · exact List.mem_append_left _ (i.4 m hm1)
          · simp at hm1
            exact hm1 ▸ List.mem_append_right _ (by simp)
        · simp [i.5]
        · exact sessionsOK_append_pair _ _ i.6
      · have hobj := succMgrs_obj_some
          { queue_manager := h.qm, object_name := h.obj, object_type := h.ty,
            details := (hopNode mgr h).1, error := some msg } msg rfl
        refine ⟨nodup_append_singleton _ _ i.1 hv, ?_, ?_, ?_, ?_, ?_⟩
        · rw [succMgrs_append, hobj]
          simpa using i.2
        · rw [succMgrs_append, hobj]
          simpa using i.3
        · rw [succMgrs_append, hobj]
          simp only [List.append_nil]
          intro m hm
          exact List.mem_append_left _ (i.4 m hm)
        · simp [i.5]
        · exact sessionsOK_append_pair _ _ i.6

/-- The invariant is preserved by any amount of fuel. -/
theorem inv_loop (w : World) (dir : List (String × ConnDetails)) :
    ∀ (f : Nat) (s : TraceState), TraceInv dir s →
      TraceInv dir (traceLoop w dir f s) := by
  intro f
  induction f with
  | zero => intro s hs; simpa [traceLoop] using hs
  | succ f ih =>
    intro s hs
    rcases hq : s.queue with _ | ⟨h, rest⟩
    · rw [traceLoop_nil w dir (f + 1) s hq]; exact hs
    · rw [traceLoop_cons w dir f s h rest hq]
      exact ih _ (inv_step w dir _ h (inv_queue_update dir s rest hs))

/-- The invariant holds of the completed run. -/
theorem inv_traceRun (w : World) (qm obj ty : String) :
    TraceInv (fetch_qmgr_details w.dbResult) (traceRun w qm obj ty) :=
  inv_loop w _ _ _ (inv_init _ qm obj ty)

/-! The claims. -/

/-- C2: for every finite directory and starting triple the traversal
terminates — the pending queue is drained at the proved fuel bound and any
extra fuel leaves the run unchanged — and the number of loop iterations is
at most the number of distinct managers in the directory plus the number of
immediately-failing hops (loop notes, connect failures, object-not-found
nodes), because each successfully processed hop adds exactly one new
directory manager to the visited set. -/
theorem C2_trace_terminates_within_bound (w : World) (qm obj ty : String) :
    (traceRun w qm obj ty).queue = [] ∧
    (∀ extra : Nat,
      traceLoop w (fetch_qmgr_details w.dbResult)
        (fuelBound w (fetch_qmgr_details w.dbResult) + extra)
        (initState qm obj ty) = traceRun w qm obj ty) ∧
    (traceRun w qm obj ty).steps = (traceRun w qm obj ty).path.length ∧
    (traceRun w qm obj ty).steps ≤
      ((fetch_qmgr_details w.dbResult).map Prod.fst).dedup.length +
        failCount (traceRun w qm obj ty).path := by
  have i := inv_traceRun w qm obj ty
  refine ⟨traceRun_queue_nil w qm obj ty, traceRun_stable w qm obj ty, i.5, ?_⟩
  have hpart := length_eq_succ_add_fail (traceRun w qm obj ty).path
  have hsucc : (succMgrs (traceRun w qm obj ty).path).length ≤
      ((fetch_qmgr_details w.dbResult).map Prod.fst).dedup.length :=
    nodup_length_le_dedup _ _ i.2 i.3
  have hsteps := i.5
  omega

/-- C3: a manager is added to the visited set at most once per traversal
(the visited list of a completed run has no duplicates), and a popped hop
whose manager is already visited only appends the terminal loop note: the
queue gains no follow-up hops, the session log gains no events (the manager
is not queried again) and the loop proceeds with the next pending hop. -/
theorem C3_visited_once_and_loop_note (w : World)
    (dir : List (String × ConnDetails)) (s : TraceState) (h : Hop)
    (qm obj ty : String) (hv : h.qm ∈ s.visited) :
    traceStep w dir s h =
      { s with
        path := s.path ++
          [.note ("Loop detected at " ++ h.qm ++ ", stopping trace")],
        steps := s.steps + 1 } ∧
    (traceRun w qm obj ty).visited.Nodup :=
  ⟨traceStep_visited w dir s h hv, (inv_traceRun w qm obj ty).1⟩

/-- Witness for C3 at a concrete already-visited hop. -/
theorem C3_visited_once_and_loop_note_witness :
    (⟨"QM1", "Q", "queue"⟩ : Hop).qm ∈
      (⟨[], ["QM1"], [], [], 0⟩ : TraceState).visited ∧
    (traceStep ⟨.ok [], []⟩ [] ⟨[], ["QM1"], [], [], 0⟩ ⟨"QM1", "Q", "queue"⟩ =
      { (⟨[], ["QM1"], [], [], 0⟩ : TraceState) with
        path := ([] : List FlowEntry) ++
          [.note ("Loop detected at " ++ "QM1" ++ ", stopping trace")],
        steps := 0 + 1 } ∧
    (traceRun ⟨.ok [], []⟩ "A" "B" "queue").visited.Nodup) :=
  ⟨by decide,
   C3_visited_once_and_loop_note ⟨.ok [], []⟩ [] ⟨[], ["QM1"], [], [], 0⟩
     ⟨"QM1", "Q", "queue"⟩ "A" "B" "queue" (by decide)⟩

/-- C9: whenever a hop opens a manager session the session is disconnected
on every exit path of that hop, so the session log of a completed run scans
with at most one session open at any time and no session left open. -/
theorem C9_sessions_balanced (w : World) (qm obj ty : String) :
    sessionsOK none (traceRun w qm obj ty).events = true :=
  (inv_traceRun w qm obj ty).6

/-- C10: a database error is caught inside `fetch_qmgr_details`, which
returns the empty mapping, so the traversal still runs without raising and
the starting hop (the only hop ever pending) degrades to a connect-failure
error node: the returned flow path is exactly that one error node. -/
theorem C10_db_error_degrades (e : String) (reach : List (String × Manager))
    (qm obj ty : String) :
    fetch_qmgr_details (.error e) = [] ∧
    (trace_message_flow ⟨.error e, reach⟩ qm obj ty).flow_path =
      [.connError ("Failed to connect to " ++ qm)] := by
  refine ⟨rfl, ?_⟩
  unfold trace_message_flow traceRun
  have hfb : fuelBound ⟨.error e, reach⟩ ([] : List (String × ConnDetails)) =
      0 + 1 := by
    simp [fuelBound]
  rw [show fetch_qmgr_details (Except.error e) =
      ([] : List (String × ConnDetails)) from rfl, hfb,
    traceLoop_cons _ _ 0 _ ⟨qm, obj, ty⟩ [] rfl,
    traceStep_connFail _ _ _ _ (by simp [initState])
      (by simp [connect_to_qmgr, lookupA])]
  simp [traceLoop, initState]

/-- C4 counterexample: a starting manager absent from the directory and a
directory-listed but unreachable manager produce the identical bare
`Failed to connect` error node — the flow path never carries a distinct
`no connection details found` message (that text only goes to stdout). -/
theorem C4_counterexample :
    (trace_message_flow ⟨.ok [], [("QM1", {})]⟩ "QM1" "Q" "queue").flow_path =
      [.connError "Failed to connect to QM1"] ∧
    (trace_message_flow ⟨.ok [{ qmgr_name := "QM1" }], []⟩ "QM1" "Q"
        "queue").flow_path =
      [.connError "Failed to connect to QM1"] ∧
    (trace_message_flow ⟨.ok [], [("QM1", {})]⟩ "QM1" "Q" "queue").flow_path =
      (trace_message_flow ⟨.ok [{ qmgr_name := "QM1" }], []⟩ "QM1" "Q"
        "queue").flow_path := by
  refine ⟨by decide, by decide, by decide⟩

/-- C4 amended: a hop whose manager is absent from the directory appends the
same bare `Failed to connect` error node as an unreachable manager (not a
distinct `no connection details found` node), enqueues nothing, and the
traversal continues; a starting manager absent from the fetched directory
yields exactly that single error node and no further hops. -/
theorem C4_directory_miss_is_failed_connect (w : World)
    (dir : List (String × ConnDetails)) (s : TraceState) (h : Hop)
    (qm obj ty : String) (hv : h.qm ∉ s.visited)
    (hd : lookupA dir h.qm = none)
    (hstart : lookupA (fetch_qmgr_details w.dbResult) qm = none) :
    traceStep w dir s h =
      { s with visited := s.visited ++ [h.qm],
               path := s.path ++ [.connError ("Failed to connect to " ++ h.qm)],
               steps := s.steps + 1 } ∧
    (trace_message_flow w qm obj ty).flow_path =
      [.connError ("Failed to connect to " ++ qm)] := by
  constructor
  · exact traceStep_connFail w dir s h hv (by simp [connect_to_qmgr, hd])
  · unfold trace_message_flow traceRun fuelBound
    rw [traceLoop_cons _ _ _ _ ⟨qm, obj, ty⟩ [] rfl,
      traceStep_connFail _ _ _ _ (by simp [initState])
        (by simp [connect_to_qmgr, hstart]),
      traceLoop_nil _ _ _ _ rfl]
    simp [initState]

/-- Witness for C4 at a world whose directory is empty. -/
theorem C4_directory_miss_is_failed_connect_witness :
    traceStep ⟨.ok [], [("QM1", {})]⟩ [] ⟨[], [], [], [], 0⟩
        ⟨"QM1", "Q", "queue"⟩ =
      { (⟨[], [], [], [], 0⟩ : TraceState) with
        visited := ([] : List String) ++ ["QM1"],
        path := ([] : List FlowEntry) ++
          [.connError ("Failed to connect to " ++ "QM1")],
        steps := 0 + 1 } ∧
    (trace_message_flow ⟨.ok [], [("QM1", {})]⟩ "QM1" "Q" "queue").flow_path =
      [.connError ("Failed to connect to " ++ "QM1")] :=
  C4_directory_miss_is_failed_connect ⟨.ok [], [("QM1", {})]⟩ []
    ⟨[], [], [], [], 0⟩ ⟨"QM1", "Q", "queue"⟩ "QM1" "Q" "queue"
    (by decide) (by decide) (by decide)

/-- C5 counterexample: an invalid starting object type (`channel`) is not
rejected before the traversal: the directory is fetched, the starting
manager's session is opened and closed (the events log is non-empty), a
FlowNode with empty details and no error is produced, and the caller
receives a normal FlowGraph — no hard failure is ever reported. -/
theorem C5_counterexample :
    (trace_message_flow ⟨.ok [{ qmgr_name := "QM1" }], [("QM1", {})]⟩
        "QM1" "X" "channel").flow_path =
      [.obj { queue_manager := "QM1", object_name := "X",
              object_type := "channel", details := {}, error := none }] ∧
    (traceRun ⟨.ok [{ qmgr_name := "QM1" }], [("QM1", {})]⟩
        "QM1" "X" "channel").events =
      [.openS "QM1", .closeS "QM1"] := by
  refine ⟨by decide, by decide⟩

/-- C5 amended: an invalid object type (neither `queue` nor `topic`) is not
validated: the traversal still runs the hop — marking the manager visited,
opening and closing its session — and appends an error-free FlowNode with
empty details; `trace_message_flow` never fails fast and never reports a
hard error to its caller. -/
theorem C5_invalid_type_not_rejected (w : World)
    (dir : List (String × ConnDetails)) (s : TraceState) (h : Hop)
    (mgr : Manager) (hv : h.qm ∉ s.visited)
    (hc : connect_to_qmgr w h.qm dir = some mgr)
    (ht1 : h.ty ≠ "queue") (ht2 : h.ty ≠ "topic") :
    traceStep w dir s h =
      { s with visited := s.visited ++ [h.qm],
               path := s.path ++
                 [.obj { queue_manager := h.qm, object_name := h.obj,
                         object_type := h.ty, details := {}, error := none }],
               events := s.events ++ [.openS h.qm, .closeS h.qm],
               steps := s.steps + 1 } := by
  rw [traceStep_connected w dir s h mgr hv hc]
  simp [hopNode, ht1, ht2]

/-- Witness for C5 at a concrete reachable manager and type `channel`. -/
theorem C5_invalid_type_not_rejected_witness :
    traceStep ⟨.ok [{ qmgr_name := "QM1" }], [("QM1", {})]⟩
        [("QM1", { host := "h", port := 1, channel := "c", user := none,
                   password := none })]
        ⟨[], [], [], [], 0⟩ ⟨"QM1", "X", "channel"⟩ =
      { (⟨[], [], [], [], 0⟩ : TraceState) with
        visited := ([] : List String) ++ ["QM1"],
        path := ([] : List FlowEntry) ++
          [.obj { queue_manager := "QM1", object_name := "X",
                  object_type := "channel", details := {}, error := none }],
        events := ([] : List SessEvent) ++ [.openS "QM1", .closeS "QM1"],
        steps := 0 + 1 } :=
  C5_invalid_type_not_rejected ⟨.ok [{ qmgr_name := "QM1" }], [("QM1", {})]⟩
    [("QM1", { host := "h", port := 1, channel := "c", user := none,
               password := none })]
    ⟨[], [], [], [], 0⟩ ⟨"QM1", "X", "channel"⟩ {} (by decide) (by decide)
    (by decide) (by decide)

/-- C6 counterexample: a remote queue whose remote-manager attribute is
blank enqueues no follow-up hop — the queue-arm processing returns an empty
hop list and the whole trace has a single FlowNode — even though the
remote-manager and remote-queue fields are recorded in the details. -/
theorem C6_counterexample :
    (hopNode { queues := [("RQ", { qType := 6, remoteQMgrName := "",
                                   remoteQName := "TQ" })] }
        ⟨"QM1", "RQ", "queue"⟩).2.2 = [] ∧
    (trace_message_flow
        ⟨.ok [{ qmgr_name := "QM1" }],
         [("QM1", { queues := [("RQ", { qType := 6, remoteQMgrName := "",
                                        remoteQName := "TQ" })] })]⟩
        "QM1" "RQ" "queue").flow_path.length = 1 := by
  refine ⟨by decide, by decide⟩

/-- C6 amended: for a hop classified as a remote queue the stripped
remote-manager and remote-queue names are always recorded in the details,
but the follow-up hop is enqueued only when both are non-blank; when either
is blank nothing is enqueued and no `next_hop` detail is set.  (Whether the
remote manager is reachable is never consulted at enqueue time: the hop list
depends only on the queue attributes.) -/
theorem C6_remote_enqueue_conditional (mgr : Manager) (qm obj : String)
    (qa : QueueAttrs) (hq : query_queue_details mgr obj = some qa)
    (hr : qa.qType = MQQT_REMOTE) :
    (handleQueue mgr qm obj).1.remote_queue_manager =
      some (pstrip qa.remoteQMgrName) ∧
    (handleQueue mgr qm obj).1.remote_queue = some (pstrip qa.remoteQName) ∧
    (handleQueue mgr qm obj).2.1 = none ∧
    (handleQueue mgr qm obj).2.2 =
      (if pstrip qa.remoteQMgrName ≠ "" ∧ pstrip qa.remoteQName ≠ "" then
        [⟨pstrip qa.remoteQMgrName, pstrip qa.remoteQName, "queue"⟩]
      else []) ∧
    (handleQueue mgr qm obj).1.next_hop =
      (if pstrip qa.remoteQMgrName ≠ "" ∧ pstrip qa.remoteQName ≠ "" then
        some (pstrip qa.remoteQName ++ " on " ++ pstrip qa.remoteQMgrName)
      else none) := by
  by_cases hcond : pstrip qa.remoteQMgrName ≠ "" ∧ pstrip qa.remoteQName ≠ "" <;>
    by_cases hx : pstrip qa.xmitQName = "" <;>
      simp [handleQueue, hq, classifyQueue, hr, MQQT_ne1, MQQT_ne2, hcond, hx]

/-- Witness for C6 at a remote queue with both names non-blank. -/
theorem C6_remote_enqueue_conditional_witness :
    (handleQueue { queues := [("RQ", { qType := 6, remoteQMgrName := "QM2",
                                       remoteQName := "TQ" })] }
        "QM1" "RQ").2.2 =
      (if pstrip "QM2" ≠ "" ∧ pstrip "TQ" ≠ "" then
        [⟨pstrip "QM2", pstrip "TQ", "queue"⟩]
      else []) :=
  (C6_remote_enqueue_conditional
    { queues := [("RQ", { qType := 6, remoteQMgrName := "QM2",
                          remoteQName := "TQ" })] }
    "QM1" "RQ" { qType := 6, remoteQMgrName := "QM2", remoteQName := "TQ" }
    (by decide) (by decide)).2.2.2.1

/-- C7: an alias queue whose base name, re-queried as a queue on the same
manager, resolves to a local queue with a bound transmission queue and
exactly one matching channel produces an error-free FlowNode whose details
carry the base object name, base object type `queue`, base queue type
`Local`, the transmission-queue name, and the channel's stripped name, type
and connection name.  (The topic re-query is the fallback taken only when
the base is not found as a queue; here the queue query succeeds.) -/
theorem C7_alias_local_channel_detail (w : World)
    (dir : List (String × ConnDetails)) (s : TraceState) (h : Hop)
    (mgr : Manager) (qa bqa : QueueAttrs) (c : ChannelRec)
    (hv : h.qm ∉ s.visited) (hc : connect_to_qmgr w h.qm dir = some mgr)
    (hty : h.ty = "queue")
    (hq : query_queue_details mgr h.obj = some qa)
    (halias : qa.qType = MQQT_ALIAS)
    (hbne : pstrip qa.baseObjectName ≠ "")
    (hbq : query_queue_details mgr (pstrip qa.baseObjectName) = some bqa)
    (hlocal : bqa.qType = MQQT_LOCAL)
    (hxne : pstrip bqa.xmitQName ≠ "")
    (hch : query_channel_details mgr (pstrip bqa.xmitQName) = [c]) :
    traceStep w dir s h =
      { s with visited := s.visited ++ [h.qm],
               path := s.path ++
                 [.obj { queue_manager := h.qm, object_name := h.obj,
                         object_type := h.ty,
                         details :=
                           { detailType := some "Alias",
                             base_object_name := some (pstrip qa.baseObjectName),
                             base_object_type := some "queue",
                             base_queue_type := some "Local",
                             transmission_queue := some (pstrip bqa.xmitQName),
                             channel := some
                               { name := pstrip c.chName,
                                 chanType := c.chType,
                                 connection_name := pstrip c.connectionName } },
                         error := none }],
               queue := s.queue ++ [⟨h.qm, pstrip qa.baseObjectName, "queue"⟩],
               events := s.events ++ [.openS h.qm, .closeS h.qm],
               steps := s.steps + 1 } := by
  rw [traceStep_connected w dir s h mgr hv hc]
  have hhn : hopNode mgr h =
      ({ detailType := some "Alias",
         base_object_name := some (pstrip qa.baseObjectName),
         base_object_type := some "queue",
         base_queue_type := some "Local",
         transmission_queue := some (pstrip bqa.xmitQName),
         channel := some { name := pstrip c.chName, chanType := c.chType,
                           connection_name := pstrip c.connectionName } },
       none, [⟨h.qm, pstrip qa.baseObjectName, "queue"⟩]) := by
    simp [hopNode, hty, handleQueue, hq, classifyQueue, halias, hbne, hbq,
      hlocal, hxne, MQQT_ne3, channelDetail, hch]
  rw [hhn]

/-- Witness for C7 at a concrete alias over a local queue with one bound
channel. -/
theorem C7_alias_local_channel_detail_witness :
    traceStep
        ⟨.ok [{ qmgr_name := "QM1" }],
         [("QM1", { queues := [("AQ", { qType := 3, baseObjectName := "BQ" }),
                               ("BQ", { qType := 1, xmitQName := "XQ" })],
                    channels := [{ chName := "CH1", chType := 7,
                                   chXmitQName := "XQ",
                                   connectionName := "h(1414)" }] })]⟩
        [("QM1", { host := "h", port := 1414, channel := "c", user := none,
                   password := none })]
        ⟨[], [], [], [], 0⟩ ⟨"QM1", "AQ", "queue"⟩ =
      { (⟨[], [], [], [], 0⟩ : TraceState) with
        visited := ([] : List String) ++ ["QM1"],
        path := ([] : List FlowEntry) ++
          [.obj { queue_manager := "QM1", object_name := "AQ",
                  object_type := "queue",
                  details :=
                    { detailType := some "Alias",
                      base_object_name := some (pstrip "BQ"),
                      base_object_type := some "queue",
                      base_queue_type := some "Local",
                      transmission_queue := some (pstrip "XQ"),
                      channel := some
                        { name := pstrip "CH1", chanType := 7,
                          connection_name := pstrip "h(1414)" } },
                  error := none }],
        queue := ([] : List Hop) ++ [⟨"QM1", pstrip "BQ", "queue"⟩],
        events := ([] : List SessEvent) ++ [.openS "QM1", .closeS "QM1"],
        steps := 0 + 1 } :=
  C7_alias_local_channel_detail
    ⟨.ok [{ qmgr_name := "QM1" }],
     [("QM1", { queues := [("AQ", { qType := 3, baseObjectName := "BQ" }),
                           ("BQ", { qType := 1, xmitQName := "XQ" })],
                channels := [{ chName := "CH1", chType := 7,
                               chXmitQName := "XQ",
                               connectionName := "h(1414)" }] })]⟩
    [("QM1", { host := "h", port := 1414, channel := "c", user := none,
               password := none })]
    ⟨[], [], [], [], 0⟩ ⟨"QM1", "AQ", "queue"⟩
    { queues := [("AQ", { qType := 3, baseObjectName := "BQ" }),
                 ("BQ", { qType := 1, xmitQName := "XQ" })],
      channels := [{ chName := "CH1", chType := 7, chXmitQName := "XQ",
                     connectionName := "h(1414)" }] }
    { qType := 3, baseObjectName := "BQ" } { qType := 1, xmitQName := "XQ" }
    { chName := "CH1", chType := 7, chXmitQName := "XQ",
      connectionName := "h(1414)" }
    (by decide) (by decide) (by decide) (by decide) (by decide) (by decide)
    (by decide) (by decide) (by decide) (by decide)

/-- C8: a topic hop whose subscription query returns exactly three
subscriptions, each with a non-blank destination, appends an error-free
topic FlowNode listing all three subscriptions — a blank stripped
destination manager replaced by the topic's own manager — and enqueues
exactly three follow-up hops of type `queue` with the same resolved
destination managers. -/
theorem C8_topic_fanout (w : World) (dir : List (String × ConnDetails))
    (s : TraceState) (h : Hop) (mgr : Manager) (ta : TopicAttrs)
    (b1 b2 b3 : SubRec)
    (hv : h.qm ∉ s.visited) (hc : connect_to_qmgr w h.qm dir = some mgr)
    (hty : h.ty = "topic")
    (ht : query_topic_details mgr h.obj = some ta)
    (hsubs : query_subscription_details mgr h.obj = [b1, b2, b3])
    (hd1 : pstrip b1.destination ≠ "") (hd2 : pstrip b2.destination ≠ "")
    (hd3 : pstrip b3.destination ≠ "") :
    traceStep w dir s h =
      { s with visited := s.visited ++ [h.qm],
               path := s.path ++
                 [.obj { queue_manager := h.qm, object_name := h.obj,
                         object_type := h.ty,
                         details :=
                           { detailType := some "Topic",
                             topic_string := some (pstrip ta.topicString),
                             subscriptions :=
                               [{ name := pstrip b1.subName,
                                  destination := pstrip b1.destination,
                                  destination_queue_manager :=
                                    if pstrip b1.destQMgr = "" then h.qm
                                    else pstrip b1.destQMgr },
                                { name := pstrip b2.subName,
                                  destination := pstrip b2.destination,
                                  destination_queue_manager :=
                                    if pstrip b2.destQMgr = "" then h.qm
                                    else pstrip b2.destQMgr },
                                { name := pstrip b3.subName,
                                  destination := pstrip b3.destination,
                                  destination_queue_manager :=
                                    if pstrip b3.destQMgr = "" then h.qm
                                    else pstrip b3.destQMgr }],
                             next_hops :=
                               [pstrip b1.destination ++ " on " ++
                                  (if pstrip b1.destQMgr = "" then h.qm
                                   else pstrip b1.destQMgr),
                                pstrip b2.destination ++ " on " ++
                                  (if pstrip b2.destQMgr = "" then h.qm
                                   else pstrip b2.destQMgr),
                                pstrip b3.destination ++ " on " ++
                                  (if pstrip b3.destQMgr = "" then h.qm
                                   else pstrip b3.destQMgr)] },
                         error := none }],
               queue := s.queue ++
                 [⟨if pstrip b1.destQMgr = "" then h.qm else pstrip b1.destQMgr,
                   pstrip b1.destination, "queue"⟩,
                  ⟨if pstrip b2.destQMgr = "" then h.qm else pstrip b2.destQMgr,
                   pstrip b2.destination, "queue"⟩,
                  ⟨if pstrip b3.destQMgr = "" then h.qm else pstrip b3.destQMgr,
                   pstrip b3.destination, "queue"⟩],
               events := s.events ++ [.openS h.qm, .closeS h.qm],
               steps := s.steps + 1 } := by
  rw [traceStep_connected w dir s h mgr hv hc]
  have hhn : hopNode mgr h =
      ({ detailType := some "Topic",
         topic_string := some (pstrip ta.topicString),
         subscriptions :=
           [{ name := pstrip b1.subName, destination := pstrip b1.destination,
              destination_queue_manager :=
                if pstrip b1.destQMgr = "" then h.qm else pstrip b1.destQMgr },
            { name := pstrip b2.subName, destination := pstrip b2.destination,
              destination_queue_manager :=
                if pstrip b2.destQMgr = "" then h.qm else pstrip b2.destQMgr },
            { name := pstrip b3.subName, destination := pstrip b3.destination,
              destination_queue_manager :=
                if pstrip b3.destQMgr = "" then h.qm else pstrip b3.destQMgr }],
         next_hops :=
           [pstrip b1.destination ++ " on " ++
              (if pstrip b1.destQMgr = "" then h.qm else pstrip b1.destQMgr),
            pstrip b2.destination ++ " on " ++
              (if pstrip b2.destQMgr = "" then h.qm else pstrip b2.destQMgr),
            pstrip b3.destination ++ " on " ++
              (if pstrip b3.destQMgr = "" then h.qm else pstrip b3.destQMgr)] },
       none,
       [⟨if pstrip b1.destQMgr = "" then h.qm else pstrip b1.destQMgr,
         pstrip b1.destination, "queue"⟩,
        ⟨if pstrip b2.destQMgr = "" then h.qm else pstrip b2.destQMgr,
         pstrip b2.destination, "queue"⟩,
        ⟨if pstrip b3.destQMgr = "" then h.qm else pstrip b3.destQMgr,
         pstrip b3.destination, "queue"⟩]) := by
    simp [hopNode, hty, handleTopic, ht, hsubs, hd1, hd2, hd3]
  rw [hhn]

/-- Witness for C8 at a topic with three active subscriptions, the first
with a blank destination manager. -/
theorem C8_topic_fanout_witness :
    traceStep
        ⟨.ok [{ qmgr_name := "QMT" }],
         [("QMT", { topics := [("T1", { topicString := "a/b" })],
                    subs := [{ subName := "S1", topicName := "T1",
                               destination := "D1", destQMgr := "" },
                             { subName := "S2", topicName := "T1",
                               destination := "D2", destQMgr := "QM2" },
                             { subName := "S3", topicName := "T1",
                               destination := "D3", destQMgr := "QM3" }] })]⟩
        [("QMT", { host := "h", port := 1414, channel := "c", user := none,
                   password := none })]
        ⟨[], [], [], [], 0⟩ ⟨"QMT", "T1", "topic"⟩ =
      { (⟨[], [], [], [], 0⟩ : TraceState) with
        visited := ([] : List String) ++ ["QMT"],
        path := ([] : List FlowEntry) ++
          [.obj { queue_manager := "QMT", object_name := "T1",
                  object_type := "topic",
                  details :=
                    { detailType := some "Topic",
                      topic_string := some (pstrip "a/b"),
                      subscriptions :=
                        [{ name := pstrip "S1", destination := pstrip "D1",
                           destination_queue_manager :=
                             if pstrip "" = "" then "QMT" else pstrip "" },
                         { name := pstrip "S2", destination := pstrip "D2",
                           destination_queue_manager :=
                             if pstrip "QM2" = "" then "QMT"
                             else pstrip "QM2" },
                         { name := pstrip "S3", destination := pstrip "D3",
                           destination_queue_manager :=
                             if pstrip "QM3" = "" then "QMT"
                             else pstrip "QM3" }],
                      next_hops :=
                        [pstrip "D1" ++ " on " ++
                           (if pstrip "" = "" then "QMT" else pstrip ""),
                         pstrip "D2" ++ " on " ++
                           (if pstrip "QM2" = "" then "QMT"
                            else pstrip "QM2"),
                         pstrip "D3" ++ " on " ++
                           (if pstrip "QM3" = "" then "QMT"
                            else pstrip "QM3")] },
                  error := none }],
        queue := ([] : List Hop) ++
          [⟨if pstrip "" = "" then "QMT" else pstrip "", pstrip "D1", "queue"⟩,
           ⟨if pstrip "QM2" = "" then "QMT" else pstrip "QM2", pstrip "D2",
            "queue"⟩,
           ⟨if pstrip "QM3" = "" then "QMT" else pstrip "QM3", pstrip "D3",
            "queue"⟩],
        events := ([] : List SessEvent) ++ [.openS "QMT", .closeS "QMT"],
        steps := 0 + 1 } :=
  C8_topic_fanout
    ⟨.ok [{ qmgr_name := "QMT" }],
     [("QMT", { topics := [("T1", { topicString := "a/b" })],
                subs := [{ subName := "S1", topicName := "T1",
                           destination := "D1", destQMgr := "" },
                         { subName := "S2", topicName := "T1",
                           destination := "D2", destQMgr := "QM2" },
                         { subName := "S3", topicName := "T1",
                           destination := "D3", destQMgr := "QM3" }] })]⟩
    [("QMT", { host := "h", port := 1414, channel := "c", user := none,
               password := none })]
    ⟨[], [], [], [], 0⟩ ⟨"QMT", "T1", "topic"⟩
    { topics := [("T1", { topicString := "a/b" })],
      subs := [{ subName := "S1", topicName := "T1", destination := "D1",
                 destQMgr := "" },
               { subName := "S2", topicName := "T1", destination := "D2",
                 destQMgr := "QM2" },
               { subName := "S3", topicName := "T1", destination := "D3",
                 destQMgr := "QM3" }] }
    { topicString := "a/b" }
    { subName := "S1", topicName := "T1", destination := "D1", destQMgr := "" }
    { subName := "S2", topicName := "T1", destination := "D2",
      destQMgr := "QM2" }
    { subName := "S3", topicName := "T1", destination := "D3",
      destQMgr := "QM3" }
    (by decide) (by decide) (by decide) (by decide) (by decide) (by decide)
    (by decide) (by decide)

/-- Stripping the empty string is a no-op. -/
theorem pstrip_empty : pstrip "" = "" := by decide

/-- Scenario fixture for the two-manager cycle: manager `A` holds the alias
queue `aq` whose base `base` is a remote queue pointing at `bq` on `B`, and
`B` holds `bq`, a remote queue pointing back at `aq` on `A`; both managers
are in the directory and reachable. -/
def mkCycleWorld (A B aq base bq : String) : World :=
  { dbResult := .ok [{ qmgr_name := A }, { qmgr_name := B }],
    reachable :=
      [(A, { queues := [(aq, { qType := MQQT_ALIAS, baseObjectName := base }),
                        (base, { qType := MQQT_REMOTE, remoteQMgrName := B,
                                 remoteQName := bq })] }),
       (B, { queues := [(bq, { qType := MQQT_REMOTE, remoteQMgrName := A,
                               remoteQName := aq })] })] }

/-- The connection details `fetch_qmgr_details` builds for a default row. -/
def defCD : ConnDetails :=
  { host := "", port := 1414, channel := "SYSTEM.DEF.SVRCONN", user := none,
    password := none }

/-- C1 counterexample: in the concrete two-manager cycle the flow path ends
with two `loop detected` notes for manager A, not exactly one — the alias
branch also enqueues the base queue as a hop on A (source line 203), so both
that hop and B's hop back to A pop as loop notes. -/
theorem C1_counterexample :
    ((trace_message_flow (mkCycleWorld "QMA" "QMB" "AQ" "BASE" "BQ")
        "QMA" "AQ" "queue").flow_path.filter
      (fun e => e = .note "Loop detected at QMA, stopping trace")).length = 2 ∧
    (trace_message_flow (mkCycleWorld "QMA" "QMB" "AQ" "BASE" "BQ")
        "QMA" "AQ" "queue").flow_path.length = 4 := by
  refine ⟨by decide, by decide⟩

/-- C1 amended: in the two-manager cycle scenario (A's starting queue is an
alias whose base resolves to a remote queue pointing at a queue on B, and
B's queue is a remote queue pointing back at A) the returned FlowGraph
contains exactly one error-free FlowNode for A, exactly one for B, and then
exactly TWO trailing `loop detected` notes for A — one for the alias's
base-queue follow-up hop on A, one for B's remote hop back to A — and never
an infinite sequence. -/
theorem C1_cycle_two_loop_notes (A B aq base bq : String)
    (hAB : A ≠ B) (haqbase : aq ≠ base)
    (hpA : pstrip A = A) (hpB : pstrip B = B) (hpaq : pstrip aq = aq)
    (hpbase : pstrip base = base) (hpbq : pstrip bq = bq)
    (hA : A ≠ "") (hB : B ≠ "") (haq : aq ≠ "") (hbase : base ≠ "")
    (hbq : bq ≠ "") :
    (trace_message_flow (mkCycleWorld A B aq base bq) A aq "queue").flow_path =
      [.obj { queue_manager := A, object_name := aq, object_type := "queue",
              details :=
                { detailType := some "Alias", base_object_name := some base,
                  base_object_type := some "queue",
                  base_queue_type := some "Remote",
                  remote_queue_manager := some B, remote_queue := some bq,
                  next_hop := some (bq ++ " on " ++ B) },
              error := none },
       .obj { queue_manager := B, object_name := bq, object_type := "queue",
              details :=
                { detailType := some "Remote",
                  remote_queue_manager := some A, remote_queue := some aq,
                  next_hop := some (aq ++ " on " ++ A) },
              error := none },
       .note ("Loop detected at " ++ A ++ ", stopping trace"),
       .note ("Loop detected at " ++ A ++ ", stopping trace")] := by
  have hBA : B ≠ A := Ne.symm hAB
  set w := mkCycleWorld A B aq base bq with hw
  set mgrA : Manager :=
    { queues := [(aq, { qType := MQQT_ALIAS, baseObjectName := base }),
                 (base, { qType := MQQT_REMOTE, remoteQMgrName := B,
                          remoteQName := bq })] } with hmgrA
  set mgrB : Manager :=
    { queues := [(bq, { qType := MQQT_REMOTE, remoteQMgrName := A,
                        remoteQName := aq })] } with hmgrB
  set dirL : List (String × ConnDetails) := [(A, defCD), (B, defCD)] with hdirL
  set d1 : Details :=
    { detailType := some "Alias", base_object_name := some base,
      base_object_type := some "queue", base_queue_type := some "Remote",
      remote_queue_manager := some B, remote_queue := some bq,
      next_hop := some (bq ++ " on " ++ B) } with hd1
  set d2 : Details :=
    { detailType := some "Remote", remote_queue_manager := some A,
      remote_queue := some aq, next_hop := some (aq ++ " on " ++ A) } with hd2
  set n1 : FlowEntry :=
    .obj { queue_manager := A, object_name := aq, object_type := "queue",
           details := d1, error := none } with hn1
  set n2 : FlowEntry :=
    .obj { queue_manager := B, object_name := bq, object_type := "queue",
           details := d2, error := none } with hn2
  set nt : FlowEntry :=
    .note ("Loop detected at " ++ A ++ ", stopping trace") with hnt
  have hdir : fetch_qmgr_details w.dbResult = dirL := by
    simp [hw, mkCycleWorld, fetch_qmgr_details, dictInsert, hAB, hdirL, defCD]
  have hfb : fuelBound w dirL = 5 := by
    have hd : ([A, B] : List String).dedup = [A, B] := by
      rw [List.dedup_cons_of_not_mem (by simp [hAB]),
        List.dedup_cons_of_not_mem (by simp), List.dedup_nil]
    simp [fuelBound, fanK, maxSubs, hw, mkCycleWorld, hdirL, hd]
  have hcA : connect_to_qmgr w A dirL = some mgrA := by
    simp [connect_to_qmgr, lookupA, hw, mkCycleWorld, hdirL, hmgrA]
  have hcB : connect_to_qmgr w B dirL = some mgrB := by
    simp [connect_to_qmgr, lookupA, hw, mkCycleWorld, hdirL, hmgrB, hAB]
  have hh1 : hopNode mgrA ⟨A, aq, "queue"⟩ =
      (d1, none, [⟨B, bq, "queue"⟩, ⟨A, base, "queue"⟩]) := by
    simp [hopNode, handleQueue, query_queue_details, lookupA, classifyQueue,
      MQQT_ne1, MQQT_ne2, MQQT_ne3, hmgrA, hd1, hpbase, hbase, haqbase, hpB,
      hpbq, hB, hbq, pstrip_empty]
  have hh2 : hopNode mgrB ⟨B, bq, "queue"⟩ = (d2, none, [⟨A, aq, "queue"⟩]) := by
    simp [hopNode, handleQueue, query_queue_details, lookupA, classifyQueue,
      MQQT_ne1, MQQT_ne2, hmgrB, hd2, hpA, hpaq, hA, haq, pstrip_empty]
  have e1 : traceStep w dirL ⟨[], [], [], [], 0⟩ ⟨A, aq, "queue"⟩ =
      ⟨[⟨B, bq, "queue"⟩, ⟨A, base, "queue"⟩], [A], [n1],
       [.openS A, .closeS A], 1⟩ := by
    rw [traceStep_connected w dirL _ _ mgrA (by simp) hcA, hh1]
    simp [hn1]
  have e2 : traceStep w dirL
      ⟨[⟨A, base, "queue"⟩], [A], [n1], [.openS A, .closeS A], 1⟩
      ⟨B, bq, "queue"⟩ =
      ⟨[⟨A, base, "queue"⟩, ⟨A, aq, "queue"⟩], [A, B], [n1, n2],
       [.openS A, .closeS A, .openS B, .closeS B], 2⟩ := by
    rw [traceStep_connected w dirL _ _ mgrB (by simp [hBA]) hcB, hh2]
    simp [hn2]
  have e3 : traceStep w dirL
      ⟨[⟨A, aq, "queue"⟩], [A, B], [n1, n2],
       [.openS A, .closeS A, .openS B, .closeS B], 2⟩
      ⟨A, base, "queue"⟩ =
      ⟨[⟨A, aq, "queue"⟩], [A, B], [n1, n2, nt],
       [.openS A, .closeS A, .openS B, .closeS B], 3⟩ := by
    rw [traceStep_visited w dirL _ _ (by simp)]
    simp [hnt]
  have e4 : traceStep w dirL
      ⟨[], [A, B], [n1, n2, nt],
       [.openS A, .closeS A, .openS B, .closeS B], 3⟩
      ⟨A, aq, "queue"⟩ =
      ⟨[], [A, B], [n1, n2, nt, nt],
       [.openS A, .closeS A, .openS B, .closeS B], 4⟩ := by
    rw [traceStep_visited w dirL _ _ (by simp)]
    simp [hnt]
  have hrun : traceRun w A aq "queue" =
      ⟨[], [A, B], [n1, n2, nt, nt],
       [.openS A, .closeS A, .openS B, .closeS B], 4⟩ := by
    unfold traceRun
    rw [hdir, hfb, show (5 : Nat) = 4 + 1 from rfl,
      traceLoop_cons w dirL 4 _ ⟨A, aq, "queue"⟩ [] rfl]
    rw [show ({ initState A aq "queue" with queue := ([] : List Hop) } :
        TraceState) = ⟨[], [], [], [], 0⟩ from rfl, e1]
    rw [show (4 : Nat) = 3 + 1 from rfl,
      traceLoop_cons w dirL 3 _ ⟨B, bq, "queue"⟩ [⟨A, base, "queue"⟩] rfl]
    rw [show ({ (⟨[⟨B, bq, "queue"⟩, ⟨A, base, "queue"⟩], [A], [n1],
        [.openS A, .closeS A], 1⟩ : TraceState) with
        queue := [⟨A, base, "queue"⟩] } : TraceState) =
        ⟨[⟨A, base, "queue"⟩], [A], [n1], [.openS A, .closeS A], 1⟩ from rfl,
      e2]
    rw [show (3 : Nat) = 2 + 1 from rfl,
      traceLoop_cons w dirL 2 _ ⟨A, base, "queue"⟩ [⟨A, aq, "queue"⟩] rfl]
    rw [show ({ (⟨[⟨A, base, "queue"⟩, ⟨A, aq, "queue"⟩], [A, B], [n1, n2],
        [.openS A, .closeS A, .openS B, .closeS B], 2⟩ : TraceState) with
        queue := [⟨A, aq, "queue"⟩] } : TraceState) =
        ⟨[⟨A, aq, "queue"⟩], [A, B], [n1, n2],
         [.openS A, .closeS A, .openS B, .closeS B], 2⟩ from rfl, e3]
    rw [show (2 : Nat) = 1 + 1 from rfl,
      traceLoop_cons w dirL 1 _ ⟨A, aq, "queue"⟩ [] rfl]
    rw [show ({ (⟨[⟨A, aq, "queue"⟩], [A, B], [n1, n2, nt],
        [.openS A, .closeS A, .openS B, .closeS B], 3⟩ : TraceState) with
        queue := ([] : List Hop) } : TraceState) =
        ⟨[], [A, B], [n1, n2, nt],
         [.openS A, .closeS A, .openS B, .closeS B], 3⟩ from rfl, e4]
    exact traceLoop_nil w dirL 1 _ rfl
  unfold trace_message_flow
  rw [hrun]

/-- Witness for C1's amended claim at concrete manager and queue names. -/
theorem C1_cycle_two_loop_notes_witness :
    (trace_message_flow (mkCycleWorld "QMA" "QMB" "AQ" "BASE" "BQ")
        "QMA" "AQ" "queue").flow_path =
      [.obj { queue_manager := "QMA", object_name := "AQ",
              object_type := "queue",
              details :=
                { detailType := some "Alias",
                  base_object_name := some "BASE",
                  base_object_type := some "queue",
                  base_queue_type := some "Remote",
                  remote_queue_manager := some "QMB",
                  remote_queue := some "BQ",
                  next_hop := some ("BQ" ++ " on " ++ "QMB") },
              error := none },
       .obj { queue_manager := "QMB", object_name := "BQ",
              object_type := "queue",
              details :=
                { detailType := some "Remote",
                  remote_queue_manager := some "QMA",
                  remote_queue := some "AQ",
                  next_hop := some ("AQ" ++ " on " ++ "QMA") },
              error := none },
       .note ("Loop detected at " ++ "QMA" ++ ", stopping trace"),
       .note ("Loop detected at " ++ "QMA" ++ ", stopping trace")] :=
  C1_cycle_two_loop_notes "QMA" "QMB" "AQ" "BASE" "BQ"
    (by decide) (by decide) (by decide) (by decide) (by decide) (by decide)
    (by decide) (by decide) (by decide) (by decide) (by decide) (by decide)
